import Mathlib

/-!
Verification of `danrpg` (`src/src/main.rs`), a minimal wgpu full-screen
shader viewer.  The development shallowly embeds the data model
(`Uniforms`, the surface configuration), the startup sequence of
`main`/`run`, and the event-loop closure of `run` as pure Lean
functions, and proves the testable properties of the specification
against them.
-/

namespace DanRpg

/-! ## IEEE-754 binary32 model

`create_uniforms` stores `size.width as f32` / `size.height as f32`.
We model an `f32` value by its 32-bit pattern (a `Nat < 2^32`).
`f32ofNat n` is the bit pattern of the IEEE-754 binary32 encoding of
the natural number `n`; it models the Rust cast `n as f32` faithfully
for `1 ≤ n ≤ 2^23`, the range in which the cast is exact and, in
particular, on the whole claim domain `[1, 16384]`. -/

/-- Fuel-driven floor of the base-2 logarithm (structural recursion so
that the kernel can evaluate it on concrete inputs). -/
def log2floorAux : Nat → Nat → Nat
  | 0, _ => 0
  | fuel + 1, n => if n ≤ 1 then 0 else log2floorAux fuel (n / 2) + 1

/-- `log2floor n` is `⌊log₂ n⌋` for `n ≥ 1` (and `0` at `0`). -/
def log2floor (n : Nat) : Nat := log2floorAux n n

/-- The IEEE-754 binary32 bit pattern of the natural number `n`
(sign bit 0, biased exponent `⌊log₂ n⌋ + 127`, 23-bit mantissa).
Models the Rust cast `n as f32`, exact for `n ≤ 2^23`. -/
def f32ofNat (n : Nat) : Nat :=
  if n = 0 then 0
  else (log2floor n + 127) * 2 ^ 23 + (n * 2 ^ (23 - log2floor n) - 2 ^ 23)

/-- The exact rational value denoted by a binary32 bit pattern with
sign bit 0 and a normal (nonzero) exponent field: `(1 + m/2^23) ·
2^(E-127)` where `E` is the exponent field and `m` the mantissa field.
`0` decodes to `0`. -/
def decodeF32 (bits : Nat) : ℚ :=
  if bits = 0 then 0
  else ((2 ^ 23 + (bits % 2 ^ 23 : ℕ) : ℚ) / 2 ^ 23) *
    (2 : ℚ) ^ (((bits / 2 ^ 23 : ℕ) : ℤ) - 127)

/-- Little-endian byte serialization of a 32-bit pattern, as produced
by `bytemuck::cast_slice` on a little-endian host. -/
def leBytes32 (bits : Nat) : List Nat :=
  [bits % 2 ^ 8, bits / 2 ^ 8 % 2 ^ 8, bits / 2 ^ 16 % 2 ^ 8, bits / 2 ^ 24 % 2 ^ 8]

/-- Reassemble a 32-bit pattern from four little-endian bytes. -/
def fromLeBytes32 (bs : List Nat) : Nat :=
  match bs with
  | [b0, b1, b2, b3] => b0 + b1 * 2 ^ 8 + b2 * 2 ^ 16 + b3 * 2 ^ 24
  | _ => 0

/-- `winit::dpi::PhysicalSize<u32>`. -/
structure PhysicalSize where
  width : Nat
  height : Nat
deriving DecidableEq, Repr

/-- The `#[repr(C)] struct Uniforms { resolution: [f32; 2] }` of
`main.rs`; the two `f32` components are modelled by their bit
patterns. -/
structure Uniforms where
  resolution : Nat × Nat
deriving DecidableEq, Repr

/-- `create_uniforms` (main.rs:135-140): reads the window's inner size
and stores it as two `f32`s. -/
def create_uniforms (size : PhysicalSize) : Uniforms :=
  { resolution := (f32ofNat size.width, f32ofNat size.height) }

/-- The byte representation of a `Uniforms` value, as laid out by
`#[repr(C)]` (two consecutive 4-byte `f32`s, no padding: `f32` has
alignment 4 and the struct has size 8) and read by
`bytemuck::cast_slice` in `create_uniform_buffer`. -/
def uniformsBytes (u : Uniforms) : List Nat :=
  leBytes32 u.resolution.1 ++ leBytes32 u.resolution.2

/-- `create_uniform_buffer` (main.rs:142-148): the contents uploaded
to the GPU buffer are `bytemuck::cast_slice(&[uniforms])`. -/
def create_uniform_buffer (u : Uniforms) : List Nat :=
  uniformsBytes u

/-! ### Bounds for `log2floor` -/

theorem log2floorAux_bounds :
    ∀ fuel n, 1 ≤ n → n ≤ fuel →
      2 ^ log2floorAux fuel n ≤ n ∧ n < 2 ^ (log2floorAux fuel n + 1) := by
  intro fuel
  induction fuel with
  | zero => intro n h1 h2; omega
  | succ fuel ih =>
    intro n h1 h2
    by_cases hsmall : n ≤ 1
    · have hn1 : n = 1 := by omega
      simp [log2floorAux, hsmall, hn1]
    · have hrec1 : 1 ≤ n / 2 := by omega
      have hrec2 : n / 2 ≤ fuel := by omega
      have ihh := ih (n / 2) hrec1 hrec2
      simp only [log2floorAux, if_neg hsmall]
      constructor
      · calc 2 ^ (log2floorAux fuel (n / 2) + 1)
            = 2 ^ log2floorAux fuel (n / 2) * 2 := by ring
          _ ≤ n / 2 * 2 := by exact Nat.mul_le_mul_right 2 ihh.1
          _ ≤ n := by omega
      · have hlt : n / 2 < 2 ^ (log2floorAux fuel (n / 2) + 1) := ihh.2
        calc n < (n / 2 + 1) * 2 := by omega
          _ ≤ 2 ^ (log2floorAux fuel (n / 2) + 1) * 2 := by
              exact Nat.mul_le_mul_right 2 (by omega)
          _ = 2 ^ (log2floorAux fuel (n / 2) + 1 + 1) := by ring

theorem log2floor_bounds (n : Nat) (h1 : 1 ≤ n) :
    2 ^ log2floor n ≤ n ∧ n < 2 ^ (log2floor n + 1) :=
  log2floorAux_bounds n n h1 (le_refl n)

theorem log2floor_le (n k : Nat) (h1 : 1 ≤ n) (h2 : n < 2 ^ (k + 1)) :
    log2floor n ≤ k := by
  by_contra hgt
  push_neg at hgt
  have hb := (log2floor_bounds n h1).1
  have hpow : 2 ^ (k + 1) ≤ 2 ^ log2floor n :=
    Nat.pow_le_pow_right (by norm_num) (by omega)
  omega

theorem f32ofNat_x_bounds (n : Nat) (h1 : 1 ≤ n) (h2 : n ≤ 2 ^ 23) :
    log2floor n ≤ 23 ∧ 2 ^ 23 ≤ n * 2 ^ (23 - log2floor n) ∧
      n * 2 ^ (23 - log2floor n) < 2 ^ 24 := by
  have hb := log2floor_bounds n h1
  have he23 : log2floor n ≤ 23 :=
    log2floor_le n 23 h1 (lt_of_le_of_lt h2 (by norm_num))
  refine ⟨he23, ?_, ?_⟩
  · calc (2:ℕ) ^ 23 = 2 ^ log2floor n * 2 ^ (23 - log2floor n) := by
          rw [← pow_add]; congr 1; omega
      _ ≤ n * 2 ^ (23 - log2floor n) := Nat.mul_le_mul_right _ hb.1
  · calc n * 2 ^ (23 - log2floor n)
        < 2 ^ (log2floor n + 1) * 2 ^ (23 - log2floor n) := by
          exact (Nat.mul_lt_mul_right (by positivity)).mpr hb.2
      _ = 2 ^ 24 := by rw [← pow_add]; congr 1; omega

theorem f32ofNat_lt (n : Nat) (h : n ≤ 2 ^ 23) : f32ofNat n < 2 ^ 32 := by
  rw [f32ofNat]
  by_cases hn : n = 0
  · simp [hn]
  · rw [if_neg hn]
    obtain ⟨he23, hx1, hx2⟩ := f32ofNat_x_bounds n (by omega) h
    have hexp : (log2floor n + 127) * 2 ^ 23 ≤ 150 * 2 ^ 23 :=
      Nat.mul_le_mul_right _ (by omega)
    omega

/-- Decoding the binary32 bit pattern of `n` recovers `n` exactly, for
`n` in the exactly-representable integer range `[1, 2^23]`. -/
theorem decodeF32_f32ofNat (n : Nat) (h1 : 1 ≤ n) (h2 : n ≤ 2 ^ 23) :
    decodeF32 (f32ofNat n) = (n : ℚ) := by
  have hn0 : n ≠ 0 := by omega
  obtain ⟨he23, hx1, hx2⟩ := f32ofNat_x_bounds n h1 h2
  set e := log2floor n with he
  set x := n * 2 ^ (23 - e) with hx
  set m := x - 2 ^ 23 with hm
  have hmlt : m < 2 ^ 23 := by omega
  have hbits : f32ofNat n = m + (e + 127) * 2 ^ 23 := by
    rw [f32ofNat, if_neg hn0, ← he, ← hx]
    omega
  have hdiv : f32ofNat n / 2 ^ 23 = e + 127 := by
    rw [hbits, Nat.add_mul_div_right _ _ (by positivity), Nat.div_eq_of_lt hmlt]
    omega
  have hmod : f32ofNat n % 2 ^ 23 = m := by
    rw [hbits, Nat.add_mul_mod_self_right, Nat.mod_eq_of_lt hmlt]
  have hne : f32ofNat n ≠ 0 := by
    have hpos : 0 < (e + 127) * 2 ^ 23 := Nat.mul_pos (by omega) (by norm_num)
    omega
  rw [decodeF32, if_neg hne, hdiv, hmod]
  have hcast : ((e + 127 : ℕ) : ℤ) - 127 = (e : ℤ) := by push_cast; ring
  rw [hcast, zpow_natCast]
  have hNat : ((2:ℕ) ^ 23 + m) * 2 ^ e = n * 2 ^ 23 := by
    have hxm : (2:ℕ) ^ 23 + m = x := by omega
    rw [hxm, hx, mul_assoc, ← pow_add, show 23 - e + e = 23 from by omega]
  rw [div_mul_eq_mul_div, div_eq_iff (by positivity)]
  exact_mod_cast hNat

theorem fromLeBytes32_leBytes32 (bits : Nat) (h : bits < 2 ^ 32) :
    fromLeBytes32 (leBytes32 bits) = bits := by
  simp only [leBytes32, fromLeBytes32]
  omega

/-! ## Surface configuration and startup negotiation

`wgpu::TextureFormat` and `wgpu::CompositeAlphaMode` are opaque
enumerations as far as `main.rs` is concerned (it only passes them
around); we model them by `Nat` identifiers.  `wgpu::PresentMode` and
`wgpu::TextureUsages` matter only through the constants `Fifo` and
`RENDER_ATTACHMENT` the source mentions. -/

abbrev TextureFormat := Nat
abbrev AlphaMode := Nat

inductive PresentMode where
  | Fifo
  | Immediate
  | Mailbox
deriving DecidableEq, Repr

/-- `wgpu::TextureUsages` bit flags; `RENDER_ATTACHMENT` is bit 4. -/
def RENDER_ATTACHMENT : Nat := 16

/-- The fields of `wgpu::SurfaceCapabilities` that `main.rs` reads. -/
structure SurfaceCapabilities where
  formats : List TextureFormat
  present_modes : List PresentMode
  alpha_modes : List AlphaMode
deriving DecidableEq, Repr

/-- `wgpu::SurfaceConfiguration` as populated by
`create_surface_config`. -/
structure SurfaceConfiguration where
  usage : Nat
  format : TextureFormat
  width : Nat
  height : Nat
  present_mode : PresentMode
  alpha_mode : AlphaMode
  view_formats : List TextureFormat
deriving DecidableEq, Repr

/-- `get_swapchain_caps_and_format` (main.rs:191-198): queries the
surface capabilities and picks `formats[0]`.  The Rust indexing
panics on an empty list, modelled by `Option`. -/
def get_swapchain_caps_and_format (caps : SurfaceCapabilities) :
    SurfaceCapabilities × Option TextureFormat :=
  (caps, caps.formats.head?)

/-- `create_surface_config` (main.rs:226-240): builds the surface
configuration with `RENDER_ATTACHMENT` usage, the given swapchain
format and size, `PresentMode::Fifo`, `alpha_modes[0]` and no extra
view formats.  The indexing `alpha_modes[0]` panics on an empty list,
modelled by `Option`. -/
def create_surface_config (caps : SurfaceCapabilities)
    (swapchain_format : TextureFormat) (size : PhysicalSize) :
    Option SurfaceConfiguration :=
  match caps.alpha_modes with
  | [] => none
  | a :: _ =>
    some { usage := RENDER_ATTACHMENT
           format := swapchain_format
           width := size.width
           height := size.height
           present_mode := PresentMode.Fifo
           alpha_mode := a
           view_formats := [] }

/-! ## The event loop of `run` (main.rs:40-85)

The closure passed to `event_loop.run` owns the mutable surface
configuration and the control flow, and issues calls against the GPU
handles.  We model the mutable state by `AppState` (including the
contents of the uniform buffer, so that writes to it — were there
any — would be observable) and each GPU call by an `Effect`. -/

/-- `winit::event_loop::ControlFlow` (the variants relevant here;
`Poll` is the initial default, the closure sets `Wait`,
`CloseRequested` sets `ExitFlow`, modelling `ControlFlow::Exit`). -/
inductive ControlFlow where
  | Poll
  | Wait
  | ExitFlow
deriving DecidableEq, Repr

/-- The events distinguished by the `match` in the closure: the three
named arms and the wildcard `_ => {}`. -/
inductive GEvent where
  | resized (size : PhysicalSize)
  | redrawRequested
  | closeRequested
  | other
deriving DecidableEq, Repr

/-- The externally visible GPU/window calls the closure can make.
`writeBuffer` models `queue.write_buffer` on the uniform buffer; the
source never calls it, and the proofs below show no handler emits
it. -/
inductive Effect where
  | configureSurface (cfg : SurfaceConfiguration)
  | requestRedraw
  | beginRenderPass
  | setPipeline
  | setBindGroup (index : Nat)
  | draw (vertexStart vertexStop instanceStart instanceStop : Nat)
  | submit
  | present
  | writeBuffer (contents : List Nat)
deriving DecidableEq, Repr

/-- The mutable state captured by the event closure: the surface
configuration `config`, the `control_flow` out-parameter, and the
uniform buffer contents on the GPU. -/
structure AppState where
  config : SurfaceConfiguration
  control_flow : ControlFlow
  uniform_buffer : List Nat
deriving DecidableEq, Repr

/-- One invocation of the event closure (main.rs:40-85).  It first
executes `*control_flow = ControlFlow::Wait;`, then dispatches:
`Resized` overwrites `config.width`/`config.height`, reconfigures the
surface and requests a redraw; `RedrawRequested` records one render
pass with one `draw(0..6, 0..1)` call, submits and presents;
`CloseRequested` sets `ControlFlow::Exit`; anything else does
nothing. -/
def handle_event (s : AppState) (ev : GEvent) : AppState × List Effect :=
  let s := { s with control_flow := ControlFlow.Wait }
  match ev with
  | GEvent.resized size =>
    let config := { s.config with width := size.width, height := size.height }
    ({ s with config := config },
      [Effect.configureSurface config, Effect.requestRedraw])
  | GEvent.redrawRequested =>
    (s, [Effect.beginRenderPass, Effect.setPipeline, Effect.setBindGroup 0,
      Effect.draw 0 6 0 1, Effect.submit, Effect.present])
  | GEvent.closeRequested =>
    ({ s with control_flow := ControlFlow.ExitFlow }, [])
  | GEvent.other => (s, [])

/-- How an emitted effect acts back on the modelled state: only a
uniform-buffer write changes it (the other effects act on the surface,
the queue or the window, which are outside `AppState`). -/
def applyEffect (s : AppState) (eff : Effect) : AppState :=
  match eff with
  | Effect.writeBuffer contents => { s with uniform_buffer := contents }
  | _ => s

/-- The effects emitted while handling one event. -/
def eventEffects (s : AppState) (ev : GEvent) : List Effect :=
  (handle_event s ev).2

/-- The state after handling one event (closure state update plus the
action of the emitted effects). -/
def stepEvent (s : AppState) (ev : GEvent) : AppState :=
  (eventEffects s ev).foldl applyEffect (handle_event s ev).1

/-- The state after handling a sequence of events in order. -/
def runEvents (s : AppState) (evs : List GEvent) : AppState :=
  evs.foldl stepEvent s

/-- The concatenated effect trace of a sequence of events. -/
def traceEvents (s : AppState) : List GEvent → List Effect
  | [] => []
  | ev :: rest => eventEffects s ev ++ traceEvents (stepEvent s ev) rest

/-- Boolean discriminators used to count effects of a given shape. -/
def isBeginRenderPass : Effect → Bool
  | Effect.beginRenderPass => true
  | _ => false

def isDraw : Effect → Bool
  | Effect.draw _ _ _ _ => true
  | _ => false

def isRequestRedraw : Effect → Bool
  | Effect.requestRedraw => true
  | _ => false

def isWriteBuffer : Effect → Bool
  | Effect.writeBuffer _ => true
  | _ => false

/-! ## Startup (`main`, main.rs:16-20, and the setup part of `run`,
main.rs:22-38)

`main` creates the event loop and the window, then calls `run`;
`run` performs the bootstrap in order: instance, surface, adapter +
device (both `.expect`, fatal on failure), shader, uniforms, uniform
buffer, bind group, pipeline layout, capabilities + format, render
pipeline, surface configuration, `surface.configure`, and finally
enters the event loop. -/

/-- The observable steps of startup, in the order the source performs
them; the `abort...` steps are the fatal `.expect`/index panics. -/
inductive StartupStep where
  | createWindow
  | createInstance
  | createSurface
  | requestAdapter
  | requestDevice
  | createShader
  | buildUniforms
  | buildUniformBuffer
  | buildBindGroup
  | buildPipelineLayout
  | queryCaps
  | buildRenderPipeline
  | configureSurface
  | enterEventLoop
  | abortNoAdapter
  | abortNoDevice
  | abortNoFormat
  | abortNoAlphaMode
deriving DecidableEq, Repr

/-- The environment the process starts in: whether the adapter and
device requests succeed, what capabilities the surface advertises,
and the window's initial inner size. -/
structure Env where
  adapterAvailable : Bool
  deviceAvailable : Bool
  caps : SurfaceCapabilities
  initialSize : PhysicalSize
deriving DecidableEq, Repr

/-- `main` followed by the setup part of `run`: the emitted step
trace, and `some` initial loop state when startup succeeds (`none`
when it aborts).  The window is created in `main`, before `run` and
hence before the adapter request. -/
def startup (env : Env) : List StartupStep × Option AppState :=
  let pre := [StartupStep.createWindow, StartupStep.createInstance,
    StartupStep.createSurface, StartupStep.requestAdapter]
  if !env.adapterAvailable then
    (pre ++ [StartupStep.abortNoAdapter], none)
  else if !env.deviceAvailable then
    (pre ++ [StartupStep.requestDevice, StartupStep.abortNoDevice], none)
  else
    let uniforms := create_uniforms env.initialSize
    let tr1 := pre ++ [StartupStep.requestDevice, StartupStep.createShader,
      StartupStep.buildUniforms, StartupStep.buildUniformBuffer,
      StartupStep.buildBindGroup, StartupStep.buildPipelineLayout,
      StartupStep.queryCaps]
    match get_swapchain_caps_and_format env.caps with
    | (_, none) => (tr1 ++ [StartupStep.abortNoFormat], none)
    | (caps, some fmt) =>
      let tr2 := tr1 ++ [StartupStep.buildRenderPipeline]
      match create_surface_config caps fmt env.initialSize with
      | none => (tr2 ++ [StartupStep.abortNoAlphaMode], none)
      | some cfg =>
        (tr2 ++ [StartupStep.configureSurface, StartupStep.enterEventLoop],
          some { config := cfg
                 control_flow := ControlFlow.Poll
                 uniform_buffer := create_uniform_buffer uniforms })

/-! ## Helper lemmas about the event loop -/

theorem runEvents_nil (s : AppState) : runEvents s [] = s := rfl

theorem runEvents_cons (s : AppState) (ev : GEvent) (evs : List GEvent) :
    runEvents s (ev :: evs) = runEvents (stepEvent s ev) evs := rfl

/-- No single event changes the negotiated configuration fields
(`usage`, `format`, `present_mode`, `alpha_mode`, `view_formats`);
only `width`/`height` are ever written. -/
theorem stepEvent_preserves_negotiated (s : AppState) (ev : GEvent) :
    (stepEvent s ev).config.usage = s.config.usage ∧
    (stepEvent s ev).config.format = s.config.format ∧
    (stepEvent s ev).config.present_mode = s.config.present_mode ∧
    (stepEvent s ev).config.alpha_mode = s.config.alpha_mode ∧
    (stepEvent s ev).config.view_formats = s.config.view_formats := by
  cases ev <;> exact ⟨rfl, rfl, rfl, rfl, rfl⟩

theorem runEvents_preserves_negotiated (evs : List GEvent) (s : AppState) :
    (runEvents s evs).config.usage = s.config.usage ∧
    (runEvents s evs).config.format = s.config.format ∧
    (runEvents s evs).config.present_mode = s.config.present_mode ∧
    (runEvents s evs).config.alpha_mode = s.config.alpha_mode ∧
    (runEvents s evs).config.view_formats = s.config.view_formats := by
  induction evs generalizing s with
  | nil => exact ⟨rfl, rfl, rfl, rfl, rfl⟩
  | cons ev rest ih =>
    have h1 := stepEvent_preserves_negotiated s ev
    have h2 := ih (stepEvent s ev)
    rw [runEvents_cons]
    exact ⟨h2.1.trans h1.1, h2.2.1.trans h1.2.1, h2.2.2.1.trans h1.2.2.1,
      h2.2.2.2.1.trans h1.2.2.2.1, h2.2.2.2.2.trans h1.2.2.2.2⟩

/-- No single event changes the uniform buffer contents. -/
theorem stepEvent_uniform_buffer (s : AppState) (ev : GEvent) :
    (stepEvent s ev).uniform_buffer = s.uniform_buffer := by
  cases ev <;> rfl

theorem runEvents_uniform_buffer (evs : List GEvent) (s : AppState) :
    (runEvents s evs).uniform_buffer = s.uniform_buffer := by
  induction evs generalizing s with
  | nil => rfl
  | cons ev rest ih =>
    rw [runEvents_cons]
    exact (ih (stepEvent s ev)).trans (stepEvent_uniform_buffer s ev)

/-- No handler arm ever emits a uniform-buffer write. -/
theorem eventEffects_no_write (s : AppState) (ev : GEvent) :
    (eventEffects s ev).countP isWriteBuffer = 0 := by
  cases ev <;> rfl

theorem traceEvents_no_write (evs : List GEvent) (s : AppState) :
    (traceEvents s evs).countP isWriteBuffer = 0 := by
  induction evs generalizing s with
  | nil => rfl
  | cons ev rest ih =>
    rw [traceEvents, List.countP_append, eventEffects_no_write,
      ih (stepEvent s ev)]

/-! ## The claims -/

/-- C1: for every resolution `(w, h)` with `w, h ∈ [1, 16384]`, the
byte representation of the `Uniforms` record built by
`create_uniforms` is exactly the two 32-bit floats (`w as f32`,
`h as f32`) in sequence with no padding (8 bytes in total), and
decoding those bytes back as two binary32 values yields `(w, h)`
exactly. -/
theorem C1_uniform_layout_roundtrip (w h : Nat)
    (hw1 : 1 ≤ w) (hw2 : w ≤ 16384) (hh1 : 1 ≤ h) (hh2 : h ≤ 16384) :
    uniformsBytes (create_uniforms ⟨w, h⟩) =
      leBytes32 (f32ofNat w) ++ leBytes32 (f32ofNat h) ∧
    (uniformsBytes (create_uniforms ⟨w, h⟩)).length = 8 ∧
    decodeF32 (fromLeBytes32 ((uniformsBytes (create_uniforms ⟨w, h⟩)).take 4)) =
      (w : ℚ) ∧
    decodeF32 (fromLeBytes32 ((uniformsBytes (create_uniforms ⟨w, h⟩)).drop 4)) =
      (h : ℚ) := by
  have hw23 : w ≤ 2 ^ 23 := le_trans hw2 (by norm_num)
  have hh23 : h ≤ 2 ^ 23 := le_trans hh2 (by norm_num)
  refine ⟨rfl, rfl, ?_, ?_⟩
  · have htake : (uniformsBytes (create_uniforms ⟨w, h⟩)).take 4 =
        leBytes32 (f32ofNat w) := rfl
    rw [htake, fromLeBytes32_leBytes32 _ (f32ofNat_lt w hw23),
      decodeF32_f32ofNat w hw1 hw23]
  · have hdrop : (uniformsBytes (create_uniforms ⟨w, h⟩)).drop 4 =
        leBytes32 (f32ofNat h) := rfl
    rw [hdrop, fromLeBytes32_leBytes32 _ (f32ofNat_lt h hh23),
      decodeF32_f32ofNat h hh1 hh23]

/-- Witness for C1 at the concrete resolution (800, 600). -/
theorem C1_uniform_layout_roundtrip_witness :
    (1 ≤ 800 ∧ 800 ≤ 16384 ∧ 1 ≤ 600 ∧ 600 ≤ 16384) ∧
    (uniformsBytes (create_uniforms ⟨800, 600⟩) =
      leBytes32 (f32ofNat 800) ++ leBytes32 (f32ofNat 600) ∧
    (uniformsBytes (create_uniforms ⟨800, 600⟩)).length = 8 ∧
    decodeF32 (fromLeBytes32 ((uniformsBytes (create_uniforms ⟨800, 600⟩)).take 4)) =
      ((800 : ℕ) : ℚ) ∧
    decodeF32 (fromLeBytes32 ((uniformsBytes (create_uniforms ⟨800, 600⟩)).drop 4)) =
      ((600 : ℕ) : ℚ)) :=
  ⟨by norm_num,
    C1_uniform_layout_roundtrip 800 600 (by norm_num) (by norm_num)
      (by norm_num) (by norm_num)⟩

/-- C3: every successful handling of a redraw-requested event records
exactly one render pass containing exactly one draw call, and that
draw call covers vertex range `[0, 6)` and instance range `[0, 1)`,
for every state (hence every window size). -/
theorem C3_single_draw_call (s : AppState) :
    (eventEffects s GEvent.redrawRequested).countP isBeginRenderPass = 1 ∧
    (eventEffects s GEvent.redrawRequested).countP isDraw = 1 ∧
    (eventEffects s GEvent.redrawRequested).filter isDraw =
      [Effect.draw 0 6 0 1] := by
  exact ⟨rfl, rfl, rfl⟩

/-- C5: handling the same resize event twice in a row leaves the
surface configuration (indeed the whole loop state) identical to
handling it once, and each resize event emits exactly one redraw
request. -/
theorem C5_resize_idempotent (s : AppState) (size : PhysicalSize) :
    (stepEvent (stepEvent s (GEvent.resized size)) (GEvent.resized size)).config =
      (stepEvent s (GEvent.resized size)).config ∧
    stepEvent (stepEvent s (GEvent.resized size)) (GEvent.resized size) =
      stepEvent s (GEvent.resized size) ∧
    (eventEffects s (GEvent.resized size)).countP isRequestRedraw = 1 := by
  exact ⟨rfl, rfl, rfl⟩

/-- C7: the swapchain format chosen at startup is the first element
of the advertised format list, with no reordering (the capability
record is returned unchanged). -/
theorem C7_first_format_selected (caps : SurfaceCapabilities) :
    (get_swapchain_caps_and_format caps).1 = caps ∧
    (get_swapchain_caps_and_format caps).2 = caps.formats.get? 0 := by
  refine ⟨rfl, ?_⟩
  rw [List.get?_zero]
  rfl

/-- C10: the resize handler performs no validation or clamping: for
every incoming `(w, h)` — including `0` (these are `Nat`s, so `w = 0`
and `h = 0` are covered) — it stores `w` and `h` unmodified in the
surface configuration and passes exactly that configuration to
`surface.configure`. -/
theorem C10_resize_no_validation (s : AppState) (w h : Nat) :
    (stepEvent s (GEvent.resized ⟨w, h⟩)).config.width = w ∧
    (stepEvent s (GEvent.resized ⟨w, h⟩)).config.height = h ∧
    (stepEvent s (GEvent.resized ⟨w, h⟩)).config =
      { s.config with width := w, height := h } ∧
    eventEffects s (GEvent.resized ⟨w, h⟩) =
      [Effect.configureSurface { s.config with width := w, height := h },
        Effect.requestRedraw] := by
  exact ⟨rfl, rfl, rfl, rfl⟩

/-- C2: after any sequence of resize events applied to the
startup-configured state, the surface configuration's `format`,
`present_mode` and `alpha_mode` equal their startup-negotiated values
(the first advertised format, `Fifo`, the first advertised alpha
mode); only `width` and `height` may differ. -/
theorem C2_resize_preserves_negotiation (caps : SurfaceCapabilities)
    (fmt : TextureFormat) (size : PhysicalSize) (cfg : SurfaceConfiguration)
    (cf : ControlFlow) (buf : List Nat) (sizes : List PhysicalSize)
    (hfmt : (get_swapchain_caps_and_format caps).2 = some fmt)
    (hcfg : create_surface_config caps fmt size = some cfg) :
    (runEvents ⟨cfg, cf, buf⟩ (sizes.map GEvent.resized)).config.format = cfg.format ∧
    (runEvents ⟨cfg, cf, buf⟩ (sizes.map GEvent.resized)).config.present_mode =
      cfg.present_mode ∧
    (runEvents ⟨cfg, cf, buf⟩ (sizes.map GEvent.resized)).config.alpha_mode =
      cfg.alpha_mode ∧
    cfg.format = fmt ∧
    caps.formats.head? = some fmt ∧
    cfg.present_mode = PresentMode.Fifo ∧
    caps.alpha_modes.head? = some cfg.alpha_mode := by
  have hpres := runEvents_preserves_negotiated (sizes.map GEvent.resized) ⟨cfg, cf, buf⟩
  rcases halpha : caps.alpha_modes with _ | ⟨a, rest⟩ <;>
    rw [create_surface_config, halpha] at hcfg
  · exact absurd hcfg (by simp)
  · have hcfg2 := Option.some.inj hcfg
    subst hcfg2
    exact ⟨hpres.2.1, hpres.2.2.1, hpres.2.2.2.1, rfl, hfmt, rfl, rfl⟩

/-- Witness for C2 at a concrete capability record, startup size
(640, 480) and the single resize sequence [(100, 200)]. -/
theorem C2_resize_preserves_negotiation_witness :
    ((get_swapchain_caps_and_format ⟨[5], [], [7]⟩).2 = some 5 ∧
      create_surface_config ⟨[5], [], [7]⟩ 5 ⟨640, 480⟩ =
        some ⟨16, 5, 640, 480, PresentMode.Fifo, 7, []⟩) ∧
    ((runEvents ⟨⟨16, 5, 640, 480, PresentMode.Fifo, 7, []⟩, ControlFlow.Poll, []⟩
        ([⟨100, 200⟩].map GEvent.resized)).config.format =
      (⟨16, 5, 640, 480, PresentMode.Fifo, 7, []⟩ : SurfaceConfiguration).format ∧
    (runEvents ⟨⟨16, 5, 640, 480, PresentMode.Fifo, 7, []⟩, ControlFlow.Poll, []⟩
        ([⟨100, 200⟩].map GEvent.resized)).config.present_mode =
      (⟨16, 5, 640, 480, PresentMode.Fifo, 7, []⟩ : SurfaceConfiguration).present_mode ∧
    (runEvents ⟨⟨16, 5, 640, 480, PresentMode.Fifo, 7, []⟩, ControlFlow.Poll, []⟩
        ([⟨100, 200⟩].map GEvent.resized)).config.alpha_mode =
      (⟨16, 5, 640, 480, PresentMode.Fifo, 7, []⟩ : SurfaceConfiguration).alpha_mode ∧
    (⟨16, 5, 640, 480, PresentMode.Fifo, 7, []⟩ : SurfaceConfiguration).format = 5 ∧
    (⟨[5], [], [7]⟩ : SurfaceCapabilities).formats.head? = some 5 ∧
    (⟨16, 5, 640, 480, PresentMode.Fifo, 7, []⟩ : SurfaceConfiguration).present_mode =
      PresentMode.Fifo ∧
    (⟨[5], [], [7]⟩ : SurfaceCapabilities).alpha_modes.head? =
      some (⟨16, 5, 640, 480, PresentMode.Fifo, 7, []⟩ : SurfaceConfiguration).alpha_mode) :=
  ⟨⟨rfl, rfl⟩,
    C2_resize_preserves_negotiation ⟨[5], [], [7]⟩ 5 ⟨640, 480⟩
      ⟨16, 5, 640, 480, PresentMode.Fifo, 7, []⟩ ControlFlow.Poll [] [⟨100, 200⟩]
      rfl rfl⟩

/-- C4: the uniform buffer is written only at startup: no handler arm
emits a uniform-buffer write, so after any event sequence the buffer
still holds its startup contents; a resize event meanwhile does
update the configuration's width/height and reconfigures the
surface. -/
theorem C4_uniform_buffer_never_rewritten (s : AppState) (evs : List GEvent)
    (size : PhysicalSize) :
    (runEvents s evs).uniform_buffer = s.uniform_buffer ∧
    (traceEvents s evs).countP isWriteBuffer = 0 ∧
    (stepEvent s (GEvent.resized size)).uniform_buffer = s.uniform_buffer ∧
    (stepEvent s (GEvent.resized size)).config.width = size.width ∧
    (stepEvent s (GEvent.resized size)).config.height = size.height ∧
    eventEffects s (GEvent.resized size) =
      [Effect.configureSurface
          { s.config with width := size.width, height := size.height },
        Effect.requestRedraw] :=
  ⟨runEvents_uniform_buffer evs s, traceEvents_no_write evs s,
    stepEvent_uniform_buffer s (GEvent.resized size), rfl, rfl, rfl⟩

/-- C8 counterexample: the closure executes
`*control_flow = ControlFlow::Wait;` before the `match`, so handling
an unrecognized event is not a no-op on the control-flow state.  The
state exhibited here is exactly the one a successful startup
produces (its control flow is the winit default `Poll`), and handling
an unrecognized event from it changes the control flow to `Wait`,
contradicting the claim that the control-flow state is left
unchanged. -/
theorem C8_counterexample_control_flow :
    (startup ⟨true, true, ⟨[3], [PresentMode.Fifo], [4]⟩, ⟨640, 480⟩⟩).2 =
      some ⟨⟨16, 3, 640, 480, PresentMode.Fifo, 4, []⟩, ControlFlow.Poll,
        create_uniform_buffer (create_uniforms ⟨640, 480⟩)⟩ ∧
    stepEvent
        ⟨⟨16, 3, 640, 480, PresentMode.Fifo, 4, []⟩, ControlFlow.Poll,
          create_uniform_buffer (create_uniforms ⟨640, 480⟩)⟩
        GEvent.other ≠
      ⟨⟨16, 3, 640, 480, PresentMode.Fifo, 4, []⟩, ControlFlow.Poll,
        create_uniform_buffer (create_uniforms ⟨640, 480⟩)⟩ := by
  exact ⟨rfl, by decide⟩

/-- C8 (amended): for every event other than resize, redraw-requested
and close-requested, the handler emits no effects and leaves the
surface configuration and the uniform buffer unchanged; the
control-flow state is set to `Wait` — as it is on every closure
invocation — and is therefore unchanged exactly when it was already
`Wait`. -/
theorem C8_other_events_ignored (s : AppState) :
    handle_event s GEvent.other = ({ s with control_flow := ControlFlow.Wait }, []) ∧
    eventEffects s GEvent.other = [] ∧
    (stepEvent s GEvent.other).config = s.config ∧
    (stepEvent s GEvent.other).uniform_buffer = s.uniform_buffer ∧
    stepEvent s GEvent.other = { s with control_flow := ControlFlow.Wait } :=
  ⟨rfl, rfl, rfl, rfl, rfl⟩

/-- Inversion of a successful startup: the adapter and device were
available, a format and an alpha mode were advertised, and the
initial loop state is exactly the one assembled from them. -/
theorem startup_success_inv (env : Env) (tr : List StartupStep) (s0 : AppState)
    (h : startup env = (tr, some s0)) :
    env.adapterAvailable = true ∧ env.deviceAvailable = true ∧
    ∃ fmt a rest, env.caps.formats.head? = some fmt ∧
      env.caps.alpha_modes = a :: rest ∧
      s0 = { config := { usage := RENDER_ATTACHMENT, format := fmt,
                         width := env.initialSize.width,
                         height := env.initialSize.height,
                         present_mode := PresentMode.Fifo, alpha_mode := a,
                         view_formats := [] },
             control_flow := ControlFlow.Poll,
             uniform_buffer :=
               create_uniform_buffer (create_uniforms env.initialSize) } := by
  rw [startup] at h
  cases hA : env.adapterAvailable with
  | false => rw [hA] at h; simp at h
  | true =>
    rw [hA] at h
    cases hD : env.deviceAvailable with
    | false => rw [hD] at h; simp at h
    | true =>
      rw [hD] at h
      simp only [Bool.not_true, Bool.false_eq_true, if_false] at h
      rw [get_swapchain_caps_and_format] at h
      cases hF : env.caps.formats.head? with
      | none => rw [hF] at h; simp at h
      | some fmt =>
        rw [hF] at h
        simp only [] at h
        cases hC : create_surface_config env.caps fmt env.initialSize with
        | none => rw [hC] at h; simp at h
        | some cfg =>
          rw [hC] at h
          rcases halpha : env.caps.alpha_modes with _ | ⟨a, rest⟩ <;>
            rw [create_surface_config, halpha] at hC
          · exact absurd hC (by simp)
          · have hcfg := Option.some.inj hC
            refine ⟨rfl, rfl, fmt, a, rest, rfl, rfl, ?_⟩
            have hs := (Prod.mk.injEq _ _ _ _).mp h
            have hs0 := Option.some.inj hs.2
            rw [← hs0, ← hcfg]

/-- C6 counterexample: in the environment where the adapter request
fails, the startup trace nonetheless begins with the window creation
performed by `main` (main.rs:18) before `run` is called, so window
creation does occur before the fatal adapter-request failure. -/
theorem C6_counterexample_window_before_adapter :
    (startup { adapterAvailable := false, deviceAvailable := true,
               caps := ⟨[], [], []⟩, initialSize := ⟨1, 1⟩ }).1 =
      [StartupStep.createWindow, StartupStep.createInstance,
       StartupStep.createSurface, StartupStep.requestAdapter,
       StartupStep.abortNoAdapter] ∧
    (startup { adapterAvailable := false, deviceAvailable := true,
               caps := ⟨[], [], []⟩, initialSize := ⟨1, 1⟩ }).2 = none := by
  exact ⟨rfl, rfl⟩

/-- C6 (amended): if the adapter request yields no compatible
adapter, startup terminates at that point: no surface configuration
is applied, the event loop is never entered, no loop state is
produced — but the window itself was already created in `main`,
before the graphics bootstrap. -/
theorem C6_no_adapter_aborts_before_loop (env : Env)
    (h : env.adapterAvailable = false) :
    (startup env).1 = [StartupStep.createWindow, StartupStep.createInstance,
      StartupStep.createSurface, StartupStep.requestAdapter,
      StartupStep.abortNoAdapter] ∧
    (startup env).2 = none ∧
    StartupStep.configureSurface ∉ (startup env).1 ∧
    StartupStep.enterEventLoop ∉ (startup env).1 ∧
    StartupStep.createWindow ∈ (startup env).1 := by
  have htr : startup env = ([StartupStep.createWindow, StartupStep.createInstance,
      StartupStep.createSurface, StartupStep.requestAdapter,
      StartupStep.abortNoAdapter], none) := by
    rw [startup, h]
    rfl
  rw [htr]
  refine ⟨rfl, rfl, by decide, by decide, by decide⟩

/-- Witness for C6 (amended) at a concrete adapter-less
environment. -/
theorem C6_no_adapter_aborts_before_loop_witness :
    ((⟨false, true, ⟨[3], [], [4]⟩, ⟨640, 480⟩⟩ : Env).adapterAvailable = false) ∧
    ((startup ⟨false, true, ⟨[3], [], [4]⟩, ⟨640, 480⟩⟩).1 =
      [StartupStep.createWindow, StartupStep.createInstance,
       StartupStep.createSurface, StartupStep.requestAdapter,
       StartupStep.abortNoAdapter] ∧
    (startup ⟨false, true, ⟨[3], [], [4]⟩, ⟨640, 480⟩⟩).2 = none ∧
    StartupStep.configureSurface ∉
      (startup ⟨false, true, ⟨[3], [], [4]⟩, ⟨640, 480⟩⟩).1 ∧
    StartupStep.enterEventLoop ∉
      (startup ⟨false, true, ⟨[3], [], [4]⟩, ⟨640, 480⟩⟩).1 ∧
    StartupStep.createWindow ∈
      (startup ⟨false, true, ⟨[3], [], [4]⟩, ⟨640, 480⟩⟩).1) :=
  ⟨rfl, C6_no_adapter_aborts_before_loop _ rfl⟩

/-- C9: whenever startup succeeds, the uniform record built by
`create_uniforms` holds exactly the initial surface configuration's
dimensions converted to binary32 — both are derived from the same
window inner size. -/
theorem C9_uniform_matches_initial_config (env : Env) (tr : List StartupStep)
    (s0 : AppState) (h : startup env = (tr, some s0)) :
    create_uniforms env.initialSize =
      { resolution := (f32ofNat s0.config.width, f32ofNat s0.config.height) } ∧
    s0.uniform_buffer = uniformsBytes (create_uniforms env.initialSize) ∧
    s0.config.width = env.initialSize.width ∧
    s0.config.height = env.initialSize.height := by
  obtain ⟨-, -, fmt, a, rest, -, -, hs0⟩ := startup_success_inv env tr s0 h
  subst hs0
  exact ⟨rfl, rfl, rfl, rfl⟩

/-- Witness for C9 at a concrete successful environment with initial
size (640, 480). -/
theorem C9_uniform_matches_initial_config_witness :
    (startup ⟨true, true, ⟨[3], [PresentMode.Fifo], [4]⟩, ⟨640, 480⟩⟩ =
      ([StartupStep.createWindow, StartupStep.createInstance,
        StartupStep.createSurface, StartupStep.requestAdapter,
        StartupStep.requestDevice, StartupStep.createShader,
        StartupStep.buildUniforms, StartupStep.buildUniformBuffer,
        StartupStep.buildBindGroup, StartupStep.buildPipelineLayout,
        StartupStep.queryCaps, StartupStep.buildRenderPipeline,
        StartupStep.configureSurface, StartupStep.enterEventLoop],
       some ⟨⟨16, 3, 640, 480, PresentMode.Fifo, 4, []⟩, ControlFlow.Poll,
         create_uniform_buffer (create_uniforms ⟨640, 480⟩)⟩)) ∧
    (create_uniforms
        (⟨true, true, ⟨[3], [PresentMode.Fifo], [4]⟩, ⟨640, 480⟩⟩ : Env).initialSize =
      { resolution :=
          (f32ofNat (⟨⟨16, 3, 640, 480, PresentMode.Fifo, 4, []⟩, ControlFlow.Poll,
             create_uniform_buffer (create_uniforms ⟨640, 480⟩)⟩
             : AppState).config.width,
           f32ofNat (⟨⟨16, 3, 640, 480, PresentMode.Fifo, 4, []⟩, ControlFlow.Poll,
             create_uniform_buffer (create_uniforms ⟨640, 480⟩)⟩
             : AppState).config.height) } ∧
    (⟨⟨16, 3, 640, 480, PresentMode.Fifo, 4, []⟩, ControlFlow.Poll,
       create_uniform_buffer (create_uniforms ⟨640, 480⟩)⟩
       : AppState).uniform_buffer =
      uniformsBytes (create_uniforms
        (⟨true, true, ⟨[3], [PresentMode.Fifo], [4]⟩, ⟨640, 480⟩⟩ : Env).initialSize) ∧
    (⟨⟨16, 3, 640, 480, PresentMode.Fifo, 4, []⟩, ControlFlow.Poll,
       create_uniform_buffer (create_uniforms ⟨640, 480⟩)⟩
       : AppState).config.width =
      (⟨true, true, ⟨[3], [PresentMode.Fifo], [4]⟩, ⟨640, 480⟩⟩ : Env).initialSize.width ∧
    (⟨⟨16, 3, 640, 480, PresentMode.Fifo, 4, []⟩, ControlFlow.Poll,
       create_uniform_buffer (create_uniforms ⟨640, 480⟩)⟩
       : AppState).config.height =
      (⟨true, true, ⟨[3], [PresentMode.Fifo], [4]⟩, ⟨640, 480⟩⟩ : Env).initialSize.height) :=
  ⟨rfl, C9_uniform_matches_initial_config _ _ _ rfl⟩

end DanRpg
